import Mathlib

/-!
Verification development for a diagnostic-clinic dashboard (dashboard.py).
The data-transformation core (classifier, loader, metric aggregators) is
embedded shallowly: pandas dataframes become lists of records, timestamps
become integers (seconds), rates become rationals, and fallible steps
return Except/Option values.
-/

/-- Boolean test: the first character list is a prefix of the second. -/
def strHasPre : List Char → List Char → Bool
  | [], _ => true
  | _ :: _, [] => false
  | a :: as, b :: bs => a == b && strHasPre as bs

/-- Boolean test: the first character list occurs contiguously inside the
second; this models the Python `in` operator on strings. -/
def strHasSub (needle : List Char) : List Char → Bool
  | [] => strHasPre needle []
  | b :: bs => strHasPre needle (b :: bs) || strHasSub needle bs

/-- Model of Python `str.upper()` on ASCII text. -/
def pyUpper (s : List Char) : List Char := s.map Char.toUpper

/-- Model of Python `str.lower()` on ASCII text. -/
def pyLower (s : String) : String := String.mk (s.data.map Char.toLower)

/-- The fixed, ordered category-to-keywords table of `categorize_procedure`
(dict insertion order in the source). -/
def categoriesList : List (String × List String) :=
  [("OPEN MRI", ["OPEN MRI", "OPEN MAGNETIC"]),
   ("US", ["US", "ULTRA", "SONOGRAM"]),
   ("CT", ["CT", "CAT SCAN", "COMPUTED TOMOGRAPHY"]),
   ("SLEEP STUDY", ["SLEEP"]),
   ("MRI", ["MRI", "MAGNETIC"]),
   ("PET/CT", ["PET/CT", "PET CT"]),
   ("XRAY", ["XRAY", "X-RAY", "X RAY", "RAD"]),
   ("MAMMOGRAM", ["MAMMO", "BREAST"]),
   ("NCS", ["NCS", "NERVE", "CONDUCTION"]),
   ("BONE DENSITY", ["BONE", "DEXA", "DENSITOMETRY"]),
   ("NUCLEAR MEDICINE", ["NUC MED", "NUCLEAR", "THYROID UPTAKE"]),
   ("CARDIAC PET", ["CARDIAC PET", "HEART PET"])]

/-- First category in the ordered table one of whose keywords occurs in the
(already upper-cased) input; `"OTHER"` when none matches. -/
def firstCategory (pt : List Char) : List (String × List String) → String
  | [] => "OTHER"
  | (c, kws) :: rest =>
      if kws.any (fun kw => strHasSub kw.data pt) then c else firstCategory pt rest

/-- Embedding of `categorize_procedure`: upper-case the input, then scan the
fixed table in order, first match wins, fallback `"OTHER"`. -/
def categorize_procedure (procedure_type : String) : String :=
  firstCategory (pyUpper procedure_type.data) categoriesList

/-- Insert into a list so that elements for which `le x y` holds come first;
building block of the insertion sort used to model `sort_values`. -/
def insSorted (le : α → α → Bool) (x : α) : List α → List α
  | [] => [x]
  | y :: ys => if le x y then x :: y :: ys else y :: insSorted le x ys

/-- Insertion sort by a boolean comparison; models pandas `sort_values` and
the sorted group keys of `groupby` (row order inside claims never matters,
only the multiset of rows). -/
def sortByB (le : α → α → Bool) : List α → List α
  | [] => []
  | x :: xs => insSorted le x (sortByB le xs)

theorem insSorted_perm (le : α → α → Bool) (x : α) (l : List α) :
    List.Perm (insSorted le x l) (x :: l) := by
  induction l with
  | nil => simp [insSorted]
  | cons y ys ih =>
      by_cases h : le x y = true
      · simp [insSorted, h]
      · simp only [insSorted, h, if_false]
        exact (ih.cons y).trans (List.Perm.swap x y ys)

theorem sortByB_perm (le : α → α → Bool) (l : List α) :
    List.Perm (sortByB le l) l := by
  induction l with
  | nil => simp [sortByB]
  | cons x xs ih => exact (insSorted_perm le x (sortByB le xs)).trans (ih.cons x)

theorem mem_sortByB (le : α → α → Bool) (l : List α) (x : α) :
    x ∈ sortByB le l ↔ x ∈ l :=
  (sortByB_perm le l).mem_iff

/-- Lexicographic strict order on character lists (Python string `<`). -/
def charsLt : List Char → List Char → Bool
  | [], [] => false
  | [], _ :: _ => true
  | _ :: _, [] => false
  | a :: as, b :: bs => a < b || (a == b && charsLt as bs)

/-- String comparison used for sorted `groupby` keys. -/
def strLe (a b : String) : Bool := charsLt a.data b.data || a == b

/-- Round to the nearest integer, ties to even (numpy rounding). -/
def roundHE (q : ℚ) : ℤ :=
  let f : ℤ := ⌊q⌋
  if q - f < 1 / 2 then f
  else if 1 / 2 < q - f then f + 1
  else if f % 2 = 0 then f else f + 1

/-- Round to one decimal place, ties to even (pandas `.round(1)`). -/
def round1 (q : ℚ) : ℚ := (roundHE (q * 10) : ℚ) / 10

/-- Median of a list of rationals, pandas style: middle element of the
sorted list, or the mean of the two middle elements for even length. -/
def medianQ (l : List ℚ) : ℚ :=
  let s := sortByB (fun a b => decide (a ≤ b)) l
  let n := l.length
  if n = 0 then 0
  else if n % 2 = 1 then s.getD (n / 2) 0
  else (s.getD (n / 2 - 1) 0 + s.getD (n / 2) 0) / 2

/-- Maximum of a list of rationals (pandas `.max()` of a nonempty series). -/
def maxQ : List ℚ → ℚ
  | [] => 0
  | h :: t => t.foldl (fun a b => max a b) h

/-- Mean of a list of rationals (pandas `.mean()` of a nonempty series). -/
def meanQ (l : List ℚ) : ℚ := l.sum / (l.length : ℚ)

/-- A raw spreadsheet cell holding a date-time: either a parseable value
(already as seconds since epoch) or unparseable text; `pd.to_datetime`
with coercion sends the latter to null (NaT). -/
inductive Cell where
  | valid (t : ℤ)
  | invalid (s : String)
deriving DecidableEq

/-- Embedding of `pd.to_datetime(col, errors="coerce")` on one cell. -/
def to_datetime : Cell → Option ℤ
  | .valid t => some t
  | .invalid _ => none

/-- A raw cell of the numeric region of the Patients Seen Report. -/
inductive NumCell where
  | num (q : ℚ)
  | invalid (s : String)
deriving DecidableEq

/-- Embedding of `pd.to_numeric(col, errors="coerce").fillna(0)` on one cell. -/
def to_numeric : NumCell → ℚ
  | .num q => q
  | .invalid _ => 0

/-- Grand total of the numeric region of the Patients Seen Report:
`patients_seen_df[numeric_cols].sum().sum()`. -/
def gridTotal (g : List (List NumCell)) : ℚ :=
  (g.map (fun row => (row.map to_numeric).sum)).sum

/-- One raw row of the "Dashboard Cancel No Show" sheet after column
selection/renaming, before date parsing and categorization. -/
structure RawRow where
  apptDate : Cell
  ptype : String
  status : String
  createdBy : String
  createdDate : Cell
  canceledBy : String
  canceledDate : Cell
deriving DecidableEq

/-- One normalized appointment record (a row of the loader dataframe). -/
structure Rec where
  apptDate : Option ℤ
  ptype : String
  status : String
  createdBy : String
  createdDate : Option ℤ
  canceledBy : String
  canceledDate : Option ℤ
  procCat : String
deriving DecidableEq

/-- Per-row normalization done by `load_data`: coerce the three date
columns and derive `Procedure Category` from `Type`. -/
def processRow (r : RawRow) : Rec :=
  ⟨to_datetime r.apptDate, r.ptype, r.status, r.createdBy,
   to_datetime r.createdDate, r.canceledBy, to_datetime r.canceledDate,
   categorize_procedure r.ptype⟩

/-- Result of `load_data`: the record list, the `total_procedures` scalar,
and the warning/error messages surfaced to the UI. -/
structure LoadResult where
  records : List Rec
  totalProcedures : ℚ
  warnings : List String
  errors : List String
deriving DecidableEq

/-- Embedding of `load_data`. The primary sheet read is an `Except` (missing
file or unreadable sheet is the error case, handled by the outer
try/except returning an empty frame and 0); the Patients Seen Report read
is an `Except` whose error case the inner try/except converts into a
warning plus `total_procedures = 0`. -/
def load_data (primary : Except String (List RawRow))
    (secondary : Except String (List (List NumCell))) : LoadResult :=
  match primary with
  | .error e => ⟨[], 0, [], ["Error loading data: " ++ e]⟩
  | .ok rows =>
      let records := rows.map processRow
      match secondary with
      | .ok grid => ⟨records, gridTotal grid, [], []⟩
      | .error e =>
          ⟨records, 0, ["Could not process Patients Seen Report: " ++ e], []⟩

/-- Embedding of the per-tab date mask
`(data["Appointment Date"].dt.date >= start) & (... <= end)`: a null
(NaT) appointment date compares false on both sides. -/
def maskDate (r : Rec) (startDate endDate : ℤ) : Bool :=
  match r.apptDate with
  | none => false
  | some t => decide (startDate ≤ t.fdiv 86400) && decide (t.fdiv 86400 ≤ endDate)

/-- The date-filtered working set `filtered_data = data[mask]`. -/
def filterByDate (l : List Rec) (startDate endDate : ℤ) : List Rec :=
  l.filter (fun r => maskDate r startDate endDate)

/-- One row of the tab-1 `proc_metrics` after the `groupby`/`agg` step:
category and the count of its rows with status `"Cancelled"`. -/
structure ProcRow where
  category : String
  cancelled : ℕ
deriving DecidableEq

/-- Embedding of
`filtered_data.groupby("Procedure Category").agg(...)` (lines 118-122):
one row per distinct category value (pandas emits group keys sorted
ascending), counting the `"Cancelled"` rows of that group. -/
def proc_metrics_counts (l : List Rec) : List ProcRow :=
  (sortByB strLe ((l.map (fun r => r.procCat)).dedup)).map
    (fun k => ⟨k, (l.filter (fun r => r.procCat == k)).countP
        (fun r => r.status == "Cancelled")⟩)

/-- One row of the tab-1 `proc_metrics` after the rate column is added. -/
structure ProcRateRow where
  category : String
  cancelled : ℕ
  rate : ℚ
deriving DecidableEq

/-- Embedding of the `Cancellation Rate` computation and sort (lines
125-130). The source evaluates
`(proc_metrics["Cancelled"] / total_procedures * 100 if total_procedures > 0 else 0).round(1)`:
positive total divides the series and rounds it; otherwise the conditional
yields the int `0`, and `(0).round(1)` raises `AttributeError` because a
Python int has no `round` attribute — modelled as the error case. -/
def proc_metrics (l : List Rec) (total_procedures : ℚ) :
    Except String (List ProcRateRow) :=
  let counts := proc_metrics_counts l
  if 0 < total_procedures then
    .ok (sortByB (fun a b => decide (b.rate ≤ a.rate))
      (counts.map (fun r =>
        ⟨r.category, r.cancelled,
         round1 ((r.cancelled : ℚ) / total_procedures * 100)⟩)))
  else
    .error "AttributeError: int object has no attribute round"

/-- One row of the OTHER-category breakdown `other_types`. -/
structure OtherRow where
  ptype : String
  total : ℕ
  cancelled : ℕ
  rate : ℚ
deriving DecidableEq

/-- Embedding of `other_types` (lines 203-213): restrict to rows whose
category is `"OTHER"`, group by the raw `Type`, count rows and cancelled
rows per group, local rate = cancelled/total*100 rounded to 1 decimal,
then sort descending by total. -/
def other_types (l : List Rec) : List OtherRow :=
  let op := l.filter (fun r => r.procCat == "OTHER")
  let rows := (sortByB strLe ((op.map (fun r => r.ptype)).dedup)).map
    (fun k =>
      let g := op.filter (fun r => r.ptype == k)
      let tot := g.length
      let canc := g.countP (fun r => r.status == "Cancelled")
      ⟨k, tot, canc, round1 ((canc : ℚ) / (tot : ℚ) * 100)⟩)
  sortByB (fun a b => decide (b.total ≤ a.total)) rows

/-- Embedding of `high_cancel` (lines 261-264): keep the `other_types` rows
with `Total >= 5` whose rate strictly exceeds the median of the
`Cancellation Rate` column of the full, unfiltered `other_types` table,
then sort descending by rate. -/
def high_cancel (l : List Rec) : List OtherRow :=
  let ot := other_types l
  let med := medianQ (ot.map (fun r => r.rate))
  sortByB (fun a b => decide (b.rate ≤ a.rate))
    (ot.filter (fun r => decide (5 ≤ r.total) && decide (med < r.rate)))

/-- The headline metrics of the selected employee in tab 2. -/
structure DetailMetrics where
  total : ℕ
  cancelled : ℕ
  rate : ℚ
deriving DecidableEq

/-- Embedding of the tab-2 detailed-analysis block (lines 356-361). The
module-level variable `total_procedures` (the clinic-wide loader total,
first component of the input state) is REASSIGNED at line 359 to
`len(employee_data)`; the returned second component is the value of that
variable after the block runs. -/
def employee_detail (total_procedures_global : ℚ) (filtered : List Rec)
    (emp : String) : DetailMetrics × ℚ :=
  let employee_data := filtered.filter (fun r => r.createdBy == emp)
  let total_procedures : ℚ := (employee_data.length : ℚ)
  let cancelled_procedures :=
    (employee_data.filter (fun r => r.status == "Cancelled")).length
  let cancellation_rate : ℚ :=
    if 0 < total_procedures then
      (cancelled_procedures : ℚ) / total_procedures * 100
    else 0
  (⟨employee_data.length, cancelled_procedures, cancellation_rate⟩,
   total_procedures)

/-- Embedding of the tab-3 `cancelled_data` pipeline (lines 410-419): restrict
to `"Cancelled"` rows, compute `Time to Cancellation` in hours as
`(canceled - created).total_seconds() / 3600` (null when either date is
null), and drop the rows where the difference is not computable. -/
def cancelled_with_elapsed (data : List Rec) : List (Rec × ℚ) :=
  (data.filter (fun r => r.status == "Cancelled")).filterMap
    (fun r =>
      match r.canceledDate, r.createdDate with
      | some k, some c => some (r, (((k - c : ℤ) : ℚ) / 3600))
      | _, _ => none)

/-- Embedding of `pd.cut(..., bins=[0, 0.1667, 1, 5, 24, inf], labels=...)`
(lines 422-429): right-closed intervals, the lowest edge 0 excluded;
values outside every bin (elapsed <= 0) get a null category. -/
def timeCategory (t : ℚ) : Option String :=
  if 0 < t ∧ t ≤ 1667 / 10000 then some "<10 mins"
  else if 1667 / 10000 < t ∧ t ≤ 1 then some "10m-1h"
  else if 1 < t ∧ t ≤ 5 then some "1-5h"
  else if 5 < t ∧ t ≤ 24 then some "5-24h"
  else if 24 < t then some ">24h"
  else none

/-- The `Time Category` column of tab 3: bucket label (or null) per
surviving cancelled row. -/
def time_buckets (data : List Rec) : List (Option String) :=
  (cancelled_with_elapsed data).map (fun p => timeCategory p.2)

/-- Modelled from the spec sentence of claim C8 (spec comparison definition,
not from the source): buckets determined by edges
`[0, 10min, 1h, 5h, 24h, inf)` read as left-closed right-open intervals,
so 0 belongs to the first bucket. -/
def specBucket (t : ℚ) : Option String :=
  if 0 ≤ t ∧ t < 1 / 6 then some "<10 mins"
  else if 1 / 6 ≤ t ∧ t < 1 then some "10m-1h"
  else if 1 ≤ t ∧ t < 5 then some "1-5h"
  else if 5 ≤ t ∧ t < 24 then some "5-24h"
  else if 24 ≤ t then some ">24h"
  else none

/-- Output of tab 3: the bucket column plus the mean/median/max summary
statistics over the unbucketed elapsed hours. -/
structure TimingStats where
  buckets : List (Option String)
  meanHours : ℚ
  medianHours : ℚ
  maxHours : ℚ
deriving DecidableEq

/-- Embedding of the whole of tab 3 (lines 406-450). The view receives the
loaded data and the caller-supplied date range, but the source computes
`cancelled_data` from `data` directly — no date mask is applied in this
tab — so the range argument is never consulted. `none` models the two
warning-only branches (no cancelled rows / no computable times). -/
def cancellation_timing_view (data : List Rec) (dateRange : ℤ × ℤ) :
    Option TimingStats :=
  let cancelled := data.filter (fun r => r.status == "Cancelled")
  if cancelled.isEmpty then none
  else
    let cd := cancelled_with_elapsed data
    if cd.isEmpty then none
    else
      let ts := cd.map (fun p => p.2)
      some ⟨cd.map (fun p => timeCategory p.2), meanQ ts, medianQ ts, maxQ ts⟩

theorem countP_split {α : Type} (p q : α → Bool) (l : List α) :
    l.countP p
      = (l.filter q).countP p + (l.filter (fun r => !q r)).countP p := by
  induction l with
  | nil => simp
  | cons r t ih =>
      by_cases hq : q r = true <;> by_cases hp : p r = true <;>
        simp [List.filter_cons, hq, hp, List.countP_cons, ih] <;> omega

theorem countP_partition {α : Type} (cat : α → String) (P : α → Bool) :
    ∀ (ks : List String) (l : List α), ks.Nodup → (∀ r ∈ l, cat r ∈ ks) →
      (ks.map (fun k => (l.filter (fun r => cat r == k)).countP P)).sum
        = l.countP P := by
  intro ks
  induction ks with
  | nil =>
      intro l _ hl
      cases l with
      | nil => simp
      | cons r t => exact absurd (hl r (List.mem_cons_self r t)) (List.not_mem_nil _)
  | cons k ks ih =>
      intro l hnd hl
      have hk : k ∉ ks := (List.nodup_cons.mp hnd).1
      have hnd2 : ks.Nodup := (List.nodup_cons.mp hnd).2
      have hmem : ∀ r ∈ l.filter (fun r => !(cat r == k)), cat r ∈ ks := by
        intro r hr
        have h1 := List.of_mem_filter hr
        have h2 := List.mem_of_mem_filter hr
        simp only [Bool.not_eq_true', beq_eq_false_iff_ne] at h1
        rcases List.mem_cons.mp (hl r h2) with h | h
        · exact absurd h h1
        · exact h
      have hmaps : ks.map (fun k2 => (l.filter (fun r => cat r == k2)).countP P)
          = ks.map (fun k2 =>
              ((l.filter (fun r => !(cat r == k))).filter
                (fun r => cat r == k2)).countP P) := by
        apply List.map_congr_left
        intro k2 hk2
        have hne : k2 ≠ k := fun h => hk (h ▸ hk2)
        rw [List.filter_filter]
        congr 1
        apply List.filter_congr
        intro r _
        by_cases h : cat r = k2
        · simp [h, hne]
        · simp [h]
      rw [List.map_cons, List.sum_cons, hmaps,
        ih (l.filter (fun r => !(cat r == k))) hnd2 hmem,
        countP_split P (fun r => cat r == k) l]

/-- Claim C1, as stated, is false: `"PET/CT"` is a keyword mapped to
category `"PET/CT"` in the fixed table, yet `classify("PET/CT")` (and its
lowercase form) returns `"CT"`, because the keyword `"CT"` of the earlier
category `"CT"` is a substring and first match wins. -/
theorem c1_keyword_self_classification_cex :
    ("PET/CT", ["PET/CT", "PET CT"]) ∈ categoriesList ∧
    categorize_procedure "PET/CT" = "CT" ∧
    categorize_procedure (pyLower "PET/CT") = "CT" ∧
    "CT" ≠ "PET/CT" := by decide

/-- Claim C1 amended: every keyword of the fixed table self-classifies to
its own category, case-insensitively, except the three keywords that
contain the earlier keyword `"CT"` — `"PET/CT"`, `"PET CT"` (category
`"PET/CT"`) and `"CONDUCTION"` (category `"NCS"`) — which classify as
`"CT"` instead. -/
theorem c1_keyword_self_classification_amended :
    (∀ p ∈ categoriesList, ∀ kw ∈ p.2,
      kw ∉ (["PET/CT", "PET CT", "CONDUCTION"] : List String) →
      categorize_procedure kw = p.1 ∧
        categorize_procedure (pyLower kw) = p.1) ∧
    (∀ kw ∈ (["PET/CT", "PET CT", "CONDUCTION"] : List String),
      categorize_procedure kw = "CT" ∧
        categorize_procedure (pyLower kw) = "CT") := by decide

/-- Witness for the amended claim C1 at the keyword `"MRI"` of category
`"MRI"`. -/
theorem c1_keyword_self_classification_witness :
    categorize_procedure "MRI" = "MRI" ∧
      categorize_procedure (pyLower "MRI") = "MRI" :=
  c1_keyword_self_classification_amended.1 ("MRI", ["MRI", "MAGNETIC"])
    (by decide) "MRI" (by decide) (by decide)

/-- Claim C2 states `cancellation_by_category` never raises and yields all
zero rates when `total_procedures == 0`; the code instead evaluates
`(0).round(1)` on that path — a Python `AttributeError` — modelled by the
error case of `proc_metrics`. The intent (the explicit
`if total_procedures > 0 else 0` guard) makes this a code bug: for every
record set, the zero-total path raises instead of returning zero rates. -/
theorem c2_zero_total_raises (l : List Rec) :
    proc_metrics l 0
      = .error "AttributeError: int object has no attribute round" := by
  simp [proc_metrics]

/-- Claim C6: the classifier scans the fixed category order, first match
wins. The table order is exactly the claimed one; any input containing
`"OPEN MRI"` (after upper-casing) is classified `"OPEN MRI"` because that
category is checked first; in particular `"OPEN MRI SCAN"` yields
`"OPEN MRI"`, not `"MRI"`. -/
theorem c6_first_match_order :
    (categoriesList.map Prod.fst
      = ["OPEN MRI", "US", "CT", "SLEEP STUDY", "MRI", "PET/CT", "XRAY",
         "MAMMOGRAM", "NCS", "BONE DENSITY", "NUCLEAR MEDICINE",
         "CARDIAC PET"]) ∧
    categorize_procedure "OPEN MRI SCAN" = "OPEN MRI" ∧
    ("OPEN MRI" : String) ≠ "MRI" ∧
    (∀ s : String, strHasSub "OPEN MRI".data (pyUpper s.data) = true →
      categorize_procedure s = "OPEN MRI") := by
  refine ⟨by decide, by decide, by decide, ?_⟩
  intro s h
  unfold categorize_procedure categoriesList firstCategory
  simp [h]

/-- Witness for the priority clause of claim C6 at the input
`"OPEN MRI SCAN"`. -/
theorem c6_first_match_order_witness :
    categorize_procedure "OPEN MRI SCAN" = "OPEN MRI" :=
  c6_first_match_order.2.2.2 "OPEN MRI SCAN" (by decide)

/-- Claim C7: when the Patients Seen Report sheet fails to load or process,
`load_data` returns `total_procedures = 0`, surfaces a warning, and the
appointment records are exactly the ones a successful secondary load would
have produced. -/
theorem c7_secondary_sheet_failure (rows : List RawRow) (e : String)
    (g : List (List NumCell)) :
    (load_data (.ok rows) (.error e)).totalProcedures = 0 ∧
    (load_data (.ok rows) (.error e)).records
      = (load_data (.ok rows) (.ok g)).records ∧
    (load_data (.ok rows) (.error e)).warnings ≠ [] := by
  refine ⟨rfl, rfl, by simp [load_data]⟩

/-- Claim C10: the tab-3 time-to-cancellation view is computed from the full
loaded record set; the caller-supplied date range never enters the
computation, so any two ranges give identical output on the same data. -/
theorem c10_timing_view_range_independent (data : List Rec)
    (range1 range2 : ℤ × ℤ) :
    cancellation_timing_view data range1
      = cancellation_timing_view data range2 := rfl

/-- Claim C3: `high_cancel` contains exactly the `other_types` rows with
`total >= 5` whose rate strictly exceeds the median of the rate column of
the full, unfiltered `other_types` table (the median is taken before the
volume cutoff); in particular no row with `total < 5` is included. -/
theorem c3_high_cancellation_subset (l : List Rec) (r : OtherRow) :
    r ∈ high_cancel l ↔
      r ∈ other_types l ∧ 5 ≤ r.total ∧
        medianQ ((other_types l).map (fun x => x.rate)) < r.rate := by
  unfold high_cancel
  rw [mem_sortByB, List.mem_filter]
  simp [and_assoc]

/-- Claim C4, as stated, is false: the tab-2 detailed-analysis block assigns
`total_procedures = len(employee_data)` at line 359, overwriting the
module-level clinic-wide total from the loader. With a loader total of 100
and a single record created by employee `"A"`, the variable holds 1, not
100, after the block runs. -/
theorem c4_total_procedures_overwritten_cex :
    (employee_detail 100
      [⟨some 0, "MRI", "Cancelled", "A", some 0, "B", some 0, "MRI"⟩]
      "A").2 = 1 ∧
    (1 : ℚ) ≠ 100 := by decide

/-- Claim C4 amended: the per-employee detail block overwrites the shared
`total_procedures` variable with the record count of the selected employee, so
the clinic-wide loader value is not preserved after it runs; the detail
metrics themselves never read the clinic-wide total (their denominators
are local), so they are identical for any two prior values of the
variable. -/
theorem c4_total_procedures_overwritten_amended (g g2 : ℚ) (l : List Rec)
    (emp : String) :
    (employee_detail g l emp).2
      = ((l.filter (fun r => r.createdBy == emp)).length : ℚ) ∧
    employee_detail g l emp = employee_detail g2 l emp :=
  ⟨rfl, rfl⟩

/-- Claim C5: for every date-filtered subset, the cancelled counts of the
per-category rows of `proc_metrics` sum to the number of `"Cancelled"`
records in that subset. -/
theorem c5_cancelled_count_totals (data : List Rec) (s e : ℤ) :
    ((proc_metrics_counts (filterByDate data s e)).map
        (fun r => r.cancelled)).sum
      = (filterByDate data s e).countP (fun r => r.status == "Cancelled") := by
  unfold proc_metrics_counts
  rw [List.map_map]
  rw [List.Perm.sum_eq (List.Perm.map _
    (sortByB_perm strLe (((filterByDate data s e).map
      (fun r => r.procCat)).dedup)))]
  exact countP_partition (fun r => r.procCat) (fun r => r.status == "Cancelled")
    (((filterByDate data s e).map (fun r => r.procCat)).dedup)
    (filterByDate data s e) (List.nodup_dedup _)
    (fun r hr => List.mem_dedup.mpr (List.mem_map_of_mem _ hr))

/-- Claim C9: every record in the date-filtered working set of any view has
a non-null appointment date — records whose appointment date failed to
parse are excluded by the mask for every date range and loader input. -/
theorem c9_date_filter_excludes_null (prim : Except String (List RawRow))
    (sec : Except String (List (List NumCell))) (s e : ℤ) (r : Rec)
    (h : r ∈ filterByDate (load_data prim sec).records s e) :
    r.apptDate.isSome := by
  rw [filterByDate, List.mem_filter] at h
  have h2 := h.2
  unfold maskDate at h2
  rcases hr : r.apptDate with _ | t
  · rw [hr] at h2; simp at h2
  · simp

/-- Witness for claim C9: a concrete loader input whose single record (with
a parseable appointment date at day 0) passes the [0, 0] date mask. -/
theorem c9_date_filter_excludes_null_witness :
    (⟨some 0, "MRI", "Cancelled", "A", some 0, "B", some 0, "MRI"⟩ :
      Rec).apptDate.isSome :=
  c9_date_filter_excludes_null
    (.ok [⟨.valid 0, "MRI", "Cancelled", "A", .valid 0, "B", .valid 0⟩])
    (.error "missing sheet") 0 0
    ⟨some 0, "MRI", "Cancelled", "A", some 0, "B", some 0, "MRI"⟩
    (by decide)

/-- Claim C8, as stated, is false at the bucket edges: `pd.cut` with
`bins=[0, 0.1667, 1, 5, 24, inf]` uses right-closed intervals that exclude
the lowest edge, so a cancelled row with `canceled_date == created_date`
(elapsed 0) survives the restriction yet receives no bucket, and an
elapsed time of exactly 10 minutes (1/6 h) lands in `<10 mins` — while the
claimed edges `[0, 10min, 1h, 5h, 24h, inf)` would bucket 0 as `<10 mins`
and 10 minutes as `10m-1h`. -/
theorem c8_time_buckets_cex :
    cancelled_with_elapsed
        [⟨some 0, "MRI", "Cancelled", "A", some 0, "B", some 0, "MRI"⟩]
      = [(⟨some 0, "MRI", "Cancelled", "A", some 0, "B", some 0, "MRI"⟩, 0)] ∧
    timeCategory 0 = none ∧
    specBucket 0 = some "<10 mins" ∧
    timeCategory (1 / 6) = some "<10 mins" ∧
    specBucket (1 / 6) = some "10m-1h" := by
  refine ⟨?_, ?_, ?_, ?_, ?_⟩
  · show [((⟨some 0, "MRI", "Cancelled", "A", some 0, "B", some 0,
        "MRI"⟩ : Rec), (((0 : ℤ) - (0 : ℤ) : ℤ) : ℚ) / 3600)]
      = [(⟨some 0, "MRI", "Cancelled", "A", some 0, "B", some 0, "MRI"⟩, 0)]
    norm_num
  · norm_num [timeCategory]
  · norm_num [specBucket]
  · norm_num [timeCategory]
  · norm_num [specBucket]

/-- Claim C8 amended: the pipeline restricts to `"Cancelled"` rows with both
`created_date` and `canceled_date` present, computes elapsed hours as
their difference, and discards non-computable rows; the surviving rows are
bucketed by the right-closed edges `(0, 0.1667], (0.1667, 1], (1, 5],
(5, 24], (24, inf)` with labels `<10 mins, 10m-1h, 1-5h, 5-24h, >24h` —
every row with positive elapsed time gets a bucket, a non-positive elapsed
time gets none. An elapsed time of 5 minutes falls in `<10 mins`, 2 hours
in `1-5h`. -/
theorem c8_time_buckets_amended :
    (∀ (data : List Rec) (r : Rec) (t : ℚ),
      (r, t) ∈ cancelled_with_elapsed data →
        r.status = "Cancelled" ∧ ∃ c k, r.createdDate = some c ∧
          r.canceledDate = some k ∧ t = ((k - c : ℤ) : ℚ) / 3600) ∧
    (∀ t : ℚ, t ≤ 0 → timeCategory t = none) ∧
    (∀ t : ℚ, 0 < t → (timeCategory t).isSome) ∧
    timeCategory (1 / 12) = some "<10 mins" ∧
    timeCategory 2 = some "1-5h" := by
  refine ⟨?_, ?_, ?_, by norm_num [timeCategory], by norm_num [timeCategory]⟩
  · intro data r t hmem
    unfold cancelled_with_elapsed at hmem
    rw [List.mem_filterMap] at hmem
    obtain ⟨a, ha, hfa⟩ := hmem
    rw [List.mem_filter] at ha
    rcases hk : a.canceledDate with _ | k
    · rw [hk] at hfa; simp at hfa
    · rcases hc : a.createdDate with _ | c
      · rw [hk, hc] at hfa; simp at hfa
      · rw [hk, hc] at hfa
        simp only [Option.some.injEq, Prod.mk.injEq] at hfa
        obtain ⟨har, hat⟩ := hfa
        subst har
        refine ⟨?_, c, k, hc, hk, hat.symm⟩
        have := ha.2
        simpa using this
  · intro t ht
    unfold timeCategory
    split_ifs with h1 h2 h3 h4 h5
    · exact absurd h1.1 (by linarith)
    · exact absurd h2.1 (by linarith)
    · exact absurd h3.1 (by linarith)
    · exact absurd h4.1 (by linarith)
    · exact absurd h5 (by linarith)
    · rfl
  · intro t ht
    unfold timeCategory
    split_ifs with h1 h2 h3 h4 h5 <;> try simp
    push_neg at h1 h2 h3 h4
    exact h5 (h4 (h3 (h2 (h1 ht))))

/-- Witness for the amended claim C8: a concrete cancelled record created at
time 0 and cancelled at time 7200 s (2 h later) is in the restricted set,
satisfies the characterization, and the boundary facts hold at 0 and 1. -/
theorem c8_time_buckets_witness :
    ((⟨some 0, "CT", "Cancelled", "A", some 0, "B", some 7200, "CT"⟩ : Rec),
        (2 : ℚ)) ∈
      cancelled_with_elapsed
        [⟨some 0, "CT", "Cancelled", "A", some 0, "B", some 7200, "CT"⟩] ∧
    ((⟨some 0, "CT", "Cancelled", "A", some 0, "B", some 7200,
        "CT"⟩ : Rec).status = "Cancelled" ∧
      ∃ c k, (some 0 : Option ℤ) = some c ∧ (some 7200 : Option ℤ) = some k ∧
        (2 : ℚ) = ((k - c : ℤ) : ℚ) / 3600) ∧
    timeCategory 0 = none ∧
    (timeCategory 1).isSome := by
  have h : cancelled_with_elapsed
      [⟨some 0, "CT", "Cancelled", "A", some 0, "B", some 7200, "CT"⟩]
    = [(⟨some 0, "CT", "Cancelled", "A", some 0, "B", some 7200, "CT"⟩,
        (2 : ℚ))] := by
    show [((⟨some 0, "CT", "Cancelled", "A", some 0, "B", some 7200,
        "CT"⟩ : Rec), (((7200 : ℤ) - (0 : ℤ) : ℤ) : ℚ) / 3600)]
      = [(⟨some 0, "CT", "Cancelled", "A", some 0, "B", some 7200, "CT"⟩,
          (2 : ℚ))]
    norm_num
  have hm : ((⟨some 0, "CT", "Cancelled", "A", some 0, "B", some 7200,
        "CT"⟩ : Rec), (2 : ℚ)) ∈
      cancelled_with_elapsed
        [⟨some 0, "CT", "Cancelled", "A", some 0, "B", some 7200, "CT"⟩] := by
    rw [h]; exact List.mem_singleton.mpr rfl
  exact ⟨hm, c8_time_buckets_amended.1 _ _ _ hm,
    c8_time_buckets_amended.2.1 0 (by norm_num),
    c8_time_buckets_amended.2.2.1 1 (by norm_num)⟩
